import Mathlib

/-!
Verification of the TraceForge demo client (`examples/python-demo/demo.py`).

The demo performs two independent requests against a chat-completion proxy:
a non-streaming completion (Test 1) and a streaming completion (Test 2),
each wrapped in its own failure-isolation boundary (`try`/`except`).
We embed the data model and the two response-consumption algorithms
shallowly and prove the spec's claims about them.
-/

namespace TraceForge

/-- Message role, as used in the request dictionaries of the demo. -/
inductive Role where
  | system
  | user
  | assistant
deriving DecidableEq

/-- One chat message: `{role: ..., content: ...}`. -/
structure ChatMessage where
  role : Role
  content : String
deriving DecidableEq

/-- The keyword arguments of `client.chat.completions.create` used by the demo:
model, messages, temperature, max_tokens and the stream flag (absent means false). -/
structure ChatRequest where
  model : String
  messages : List ChatMessage
  temperature : Rat
  maxTokens : Nat
  stream : Bool
deriving DecidableEq

/-- The `message` object of a non-streaming choice; its `content` is optional
(`None` in Python when the backend produced no text). -/
structure Message where
  content : Option String
deriving DecidableEq

/-- One `choice` of a non-streaming completion; the `message` attribute may be
absent in a malformed payload (accessing `.content` on it then faults). -/
structure Choice where
  message : Option Message
deriving DecidableEq

/-- A non-streaming completion result: `completion.choices`. -/
structure CompletionResult where
  choices : List Choice
deriving DecidableEq

/-- The `delta` object of a streaming chunk choice; `content` may be `None`
(role-only or terminal fragments). -/
structure Delta where
  content : Option String
deriving DecidableEq

/-- One `choice` of a streaming chunk. -/
structure FragmentChoice where
  delta : Delta
deriving DecidableEq

/-- One streaming chunk: `chunk.choices`. -/
structure CompletionFragment where
  choices : List FragmentChoice
deriving DecidableEq

/-- The faults the demo's two `try` blocks can observe: a fault raised by the
transport call itself, an index fault from `choices[0]` on an empty list, and
an attribute fault from reading `.content` of a missing `message`. -/
inductive DemoError where
  | transportFault
  | noChoices
  | noMessage
deriving DecidableEq

/-- The request of Test 1 (regular completion), exactly as built in the source;
`stream` is not passed, so it defaults to false. -/
def request1 : ChatRequest :=
  { model := "gpt-3.5-turbo"
    messages :=
      [ { role := Role.system, content := "You are a helpful assistant." }
      , { role := Role.user, content := "Explain quantum computing in one sentence." } ]
    temperature := 7 / 10
    maxTokens := 100
    stream := false }

/-- The request of Test 2 (streaming completion), exactly as built in the source. -/
def request2 : ChatRequest :=
  { model := "gpt-3.5-turbo"
    messages :=
      [ { role := Role.system, content := "You are a helpful assistant." }
      , { role := Role.user, content := "Count from 1 to 5 slowly." } ]
    temperature := 7 / 10
    maxTokens := 50
    stream := true }

/-- Test 1's consumption: `completion.choices[0].message.content`.
`choices[0]` on an empty list faults; `.content` on an absent message faults;
an absent `content` is surfaced as the value `None` (not a fault: the demo
prints it and still reports success). -/
def consume (r : CompletionResult) : Except DemoError (Option String) :=
  match r.choices with
  | [] => Except.error DemoError.noChoices
  | c :: _ =>
    match c.message with
    | none => Except.error DemoError.noMessage
    | some m => Except.ok m.content

/-- Test 2's loop body, with the state it threads: `acc` is `full_content` and
`out` is the sequence of deltas printed so far (each delta is surfaced
individually, in order, before the next fragment is requested).
`chunk.choices[0]` on an empty list faults, aborting the whole loop. -/
def runStream (acc : String) (out : List String) :
    List CompletionFragment → Except DemoError (String × List String)
  | [] => Except.ok (acc, out)
  | f :: rest =>
    match f.choices with
    | [] => Except.error DemoError.noChoices
    | c :: _ =>
      match c.delta.content with
      | none => runStream acc out rest
      | some s => runStream (acc ++ s) (out ++ [s]) rest

/-- Test 2's consumption of the whole fragment sequence: `full_content` starts
empty and nothing has been printed yet. -/
def consumeStream (fs : List CompletionFragment) : Except DemoError (String × List String) :=
  runStream "" [] fs

/-- The content delta carried by a fragment's first choice, if any. -/
def fragmentDelta (f : CompletionFragment) : Option String :=
  match f.choices with
  | [] => none
  | c :: _ => c.delta.content

/-- Concatenation of a list of strings in order. -/
def joinAll : List String → String
  | [] => ""
  | s :: rest => s ++ joinAll rest

/-- A well-formed streaming fragment carrying exactly one choice whose delta
content is present: the shape the demo's stub scenarios deliver. -/
def mkFragment (s : String) : CompletionFragment :=
  { choices := [{ delta := { content := some s } }] }

/-- A fragment whose delta content is absent (`None`): skipped by the loop. -/
def nullFragment : CompletionFragment :=
  { choices := [{ delta := { content := none } }] }

/-- The externally supplied transport (the OpenAI client talking to the proxy):
one operation per mode, each may fault. -/
structure Transport where
  complete : ChatRequest → Except DemoError CompletionResult
  completeStream : ChatRequest → Except DemoError (List CompletionFragment)

/-- Test 1 as a whole: submit `request1`, then consume the result; a transport
fault and a shape fault land in the same `except` boundary. -/
def runTest1 (t : Transport) : Except DemoError (Option String) :=
  (t.complete request1).bind consume

/-- Test 2 as a whole: submit `request2`, then consume the fragment stream;
a transport fault and an iteration fault land in the same `except` boundary. -/
def runTest2 (t : Transport) : Except DemoError (String × List String) :=
  (t.completeStream request2).bind consumeStream

/-- The demo's `main`: Test 1 runs inside its own boundary, then Test 2 runs
inside its own boundary, unconditionally. -/
def mainRun (t : Transport) :
    Except DemoError (Option String) × Except DemoError (String × List String) :=
  (runTest1 t, runTest2 t)

/-- The stub transport of end-to-end scenario B: the non-streaming call faults
and the streaming call yields fragments with deltas "1", ", 2", ", 3", ", 4", ", 5". -/
def stubB : Transport :=
  { complete := fun _ => Except.error DemoError.transportFault
    completeStream := fun _ =>
      Except.ok (["1", ", 2", ", 3", ", 4", ", 5"].map mkFragment) }

/-- The stub result of end-to-end scenario A. -/
def scenarioAResult : CompletionResult :=
  { choices := [{ message := some { content := some "Quantum computing uses qubits." } }] }

/-- A transport whose streaming call yields a stream with a malformed
(empty-choices) fragment between two well-formed ones. -/
def stub4 : Transport :=
  { complete := fun _ => Except.error DemoError.transportFault
    completeStream := fun _ =>
      Except.ok [mkFragment "Hi", { choices := [] }, mkFragment "later"] }

/-- A transport whose non-streaming call succeeds with scenario A's result and
whose streaming call yields zero fragments. -/
def stub9 : Transport :=
  { complete := fun _ => Except.ok scenarioAResult
    completeStream := fun _ => Except.ok [] }

lemma fragmentDelta_mkFragment (s : String) : fragmentDelta (mkFragment s) = some s := rfl

lemma choices_ne_nil_of_delta_isSome {f : CompletionFragment}
    (h : (fragmentDelta f).isSome) : f.choices ≠ [] := by
  intro hnil
  simp [fragmentDelta, hnil] at h

lemma joinAll_append (xs ys : List String) :
    joinAll (xs ++ ys) = joinAll xs ++ joinAll ys := by
  induction xs with
  | nil => simp [joinAll, String.empty_append]
  | cons x rest ih => simp [joinAll, ih, String.append_assoc]

lemma string_append_left_cancel {s x y : String} (h : s ++ x = s ++ y) : x = y := by
  apply String.ext
  have hd := congrArg String.data h
  rw [String.data_append, String.data_append] at hd
  exact List.append_cancel_left hd

lemma string_append_right_cancel {s x y : String} (h : x ++ s = y ++ s) : x = y := by
  apply String.ext
  have hd := congrArg String.data h
  rw [String.data_append, String.data_append] at hd
  exact List.append_cancel_right hd

lemma filterMap_map_mkFragment (ds : List String) :
    (ds.map mkFragment).filterMap fragmentDelta = ds := by
  induction ds with
  | nil => rfl
  | cons d rest ih => simp [fragmentDelta_mkFragment, ih]

/-- Characterisation of the streaming loop on a stream whose fragments all have
a first choice: it succeeds, appends the present deltas to `acc` in order, and
surfaces them after `out` in order. -/
lemma runStream_ok (fs : List CompletionFragment) :
    ∀ acc out, (∀ f ∈ fs, f.choices ≠ []) →
    runStream acc out fs =
      Except.ok (acc ++ joinAll (fs.filterMap fragmentDelta),
                 out ++ fs.filterMap fragmentDelta) := by
  induction fs with
  | nil =>
    intro acc out _
    simp [runStream, joinAll, String.append_empty]
  | cons f rest ih =>
    intro acc out h
    have hf : f.choices ≠ [] := h f (by simp)
    have hrest : ∀ g ∈ rest, g.choices ≠ [] := fun g hg => h g (by simp [hg])
    cases hfc : f.choices with
    | nil => exact absurd hfc hf
    | cons c cs =>
      cases hcd : c.delta.content with
      | none =>
        simp [runStream, hfc, hcd, fragmentDelta, ih _ _ hrest]
      | some s =>
        simp [runStream, hfc, hcd, fragmentDelta, ih _ _ hrest, joinAll,
          String.append_assoc]

/-- If some fragment of the stream has an empty choices list, the loop faults:
no accumulated text is ever produced as a result. -/
lemma runStream_bad_error (pre : List CompletionFragment) (bad : CompletionFragment)
    (post : List CompletionFragment) (hbad : bad.choices = []) :
    ∀ acc out, ∃ e, runStream acc out (pre ++ bad :: post) = Except.error e := by
  induction pre with
  | nil =>
    intro acc out
    exact ⟨DemoError.noChoices, by simp [runStream, hbad]⟩
  | cons f rest ih =>
    intro acc out
    cases hfc : f.choices with
    | nil => exact ⟨DemoError.noChoices, by simp [runStream, hfc]⟩
    | cons c cs =>
      cases hcd : c.delta.content with
      | none =>
        obtain ⟨e, he⟩ := ih acc out
        exact ⟨e, by simp [runStream, hfc, hcd]; exact he⟩
      | some s =>
        obtain ⟨e, he⟩ := ih (acc ++ s) (out ++ [s])
        exact ⟨e, by simp [runStream, hfc, hcd]; exact he⟩

/-- After a prefix of fragments that all have a first choice, an empty-choices
fragment faults the loop with precisely the index fault, whatever comes after. -/
lemma runStream_prefix_error (pre post : List CompletionFragment) :
    ∀ acc out, (∀ f ∈ pre, f.choices ≠ []) →
    runStream acc out (pre ++ { choices := [] } :: post) =
      Except.error DemoError.noChoices := by
  induction pre with
  | nil =>
    intro acc out _
    simp [runStream]
  | cons f rest ih =>
    intro acc out h
    have hf : f.choices ≠ [] := h f (by simp)
    have hrest : ∀ g ∈ rest, g.choices ≠ [] := fun g hg => h g (by simp [hg])
    cases hfc : f.choices with
    | nil => exact absurd hfc hf
    | cons c cs =>
      cases hcd : c.delta.content with
      | none => simp [runStream, hfc, hcd, ih _ _ hrest]
      | some s => simp [runStream, hfc, hcd, ih _ _ hrest]

/-- C1: for every finite fragment sequence in which every fragment's content
delta is present, the streaming consumer succeeds and its accumulated text is
the concatenation of all deltas in arrival order (which are also the deltas it
surfaced, in order). -/
theorem c1_stream_accumulates_concat (fs : List CompletionFragment)
    (h : ∀ f ∈ fs, (fragmentDelta f).isSome) :
    consumeStream fs =
      Except.ok (joinAll (fs.filterMap fragmentDelta), fs.filterMap fragmentDelta) := by
  have hr := runStream_ok fs "" []
    (fun f hf => choices_ne_nil_of_delta_isSome (h f hf))
  rw [consumeStream, hr, String.empty_append, List.nil_append]

/-- Witness for C1 at the two-fragment stream with deltas "ab" and "cd". -/
theorem c1_witness :
    consumeStream [mkFragment "ab", mkFragment "cd"] = Except.ok ("abcd", ["ab", "cd"]) :=
  (c1_stream_accumulates_concat [mkFragment "ab", mkFragment "cd"] (by decide)).trans rfl

/-- C2: for every well-formed CompletionResult whose first choice is present and
carries a message with content text, the non-streaming consumer surfaces exactly
that first choice's content text, unmodified. -/
theorem c2_consume_first_content (r : CompletionResult) (c : Choice) (cs : List Choice)
    (m : Message) (s : String) (h1 : r.choices = c :: cs) (h2 : c.message = some m)
    (h3 : m.content = some s) : consume r = Except.ok (some s) := by
  simp [consume, h1, h2, h3]

/-- Witness for C2 at the stub result of end-to-end scenario A. -/
theorem c2_witness :
    consume scenarioAResult = Except.ok (some "Quantum computing uses qubits.") :=
  c2_consume_first_content scenarioAResult _ [] _ _ rfl rfl rfl

/-- C3: fragments with an absent delta are skipped as no-ops without terminating
consumption and contribute nothing: on any stream whose fragments all have a
first choice, the accumulated text is the concatenation of just the present
deltas, in order. -/
theorem c3_null_deltas_skipped (fs : List CompletionFragment)
    (h : ∀ f ∈ fs, f.choices ≠ []) :
    consumeStream fs =
      Except.ok (joinAll (fs.filterMap fragmentDelta), fs.filterMap fragmentDelta) := by
  have hr := runStream_ok fs "" [] h
  rw [consumeStream, hr, String.empty_append, List.nil_append]

/-- Witness for C3: deltas "Hello", null, " world" accumulate to exactly
"Hello world". -/
theorem c3_witness :
    consumeStream [mkFragment "Hello", nullFragment, mkFragment " world"] =
      Except.ok ("Hello world", ["Hello", " world"]) :=
  (c3_null_deltas_skipped [mkFragment "Hello", nullFragment, mkFragment " world"]
    (by decide)).trans rfl

/-- C4: if a fault is raised at any point during iteration of the streaming
fragment sequence (here: a fragment whose choices list is empty, so that
`chunk.choices[0]` faults), the streaming operation as a whole fails: its
result is an error that carries no accumulated text, so the text accumulated
up to the fault point is discarded and never returned. -/
theorem c4_fault_discards_accumulation (t : Transport) (pre : List CompletionFragment)
    (bad : CompletionFragment) (post : List CompletionFragment)
    (hbad : bad.choices = []) (hs : t.completeStream request2 = Except.ok (pre ++ bad :: post)) :
    ∃ e, runTest2 t = Except.error e := by
  obtain ⟨e, he⟩ := runStream_bad_error pre bad post hbad "" []
  refine ⟨e, ?_⟩
  unfold runTest2
  rw [hs]
  exact he

/-- Witness for C4 at a stream that faults on its second fragment. -/
theorem c4_witness : ∃ e, runTest2 stub4 = Except.error e :=
  c4_fault_discards_accumulation stub4 [mkFragment "Hi"] { choices := [] }
    [mkFragment "later"] rfl rfl

/-- C5: the two test operations have independent failure boundaries: whatever
the transport, replacing its non-streaming call by one that always faults makes
Test 1 report that fault but leaves Test 2's outcome exactly as before — the
streaming operation still executes against the same streaming transport. -/
theorem c5_failure_isolation (t : Transport) (e : DemoError) :
    mainRun { complete := fun _ => Except.error e, completeStream := t.completeStream } =
      (Except.error e, (mainRun t).2) := rfl

/-- C6 counterexample: the deltas "x" and "xx" are non-identical, yet swapping
their two fragments leaves the accumulated text "xxx" unchanged — the claim's
universally quantified order-sensitivity fails. -/
theorem c6_counterexample :
    ("x" : String) ≠ "xx" ∧
    consumeStream [mkFragment "x", mkFragment "xx"] = Except.ok ("xxx", ["x", "xx"]) ∧
    consumeStream [mkFragment "xx", mkFragment "x"] = Except.ok ("xxx", ["xx", "x"]) :=
  ⟨by decide, rfl, rfl⟩

/-- C6 amended: swapping two adjacent present deltas a and b, in an otherwise
identical sequence, changes the accumulated text precisely when a and b do not
commute as strings (a ++ b ≠ b ++ a); both consumptions succeed and their
accumulated texts differ. -/
theorem c6_order_sensitive (pre : List String) (a b : String) (post : List String)
    (hne : a ++ b ≠ b ++ a) :
    consumeStream ((pre ++ a :: b :: post).map mkFragment) =
      Except.ok (joinAll (pre ++ a :: b :: post), pre ++ a :: b :: post) ∧
    consumeStream ((pre ++ b :: a :: post).map mkFragment) =
      Except.ok (joinAll (pre ++ b :: a :: post), pre ++ b :: a :: post) ∧
    joinAll (pre ++ a :: b :: post) ≠ joinAll (pre ++ b :: a :: post) := by
  have hwf : ∀ (ds : List String), ∀ f ∈ ds.map mkFragment, f.choices ≠ [] := by
    intro ds f hf
    rw [List.mem_map] at hf
    obtain ⟨s, _, rfl⟩ := hf
    simp [mkFragment]
  have h1 := runStream_ok ((pre ++ a :: b :: post).map mkFragment) "" []
    (hwf (pre ++ a :: b :: post))
  have h2 := runStream_ok ((pre ++ b :: a :: post).map mkFragment) "" []
    (hwf (pre ++ b :: a :: post))
  rw [filterMap_map_mkFragment, String.empty_append, List.nil_append] at h1 h2
  refine ⟨h1, h2, ?_⟩
  intro heq
  rw [joinAll_append, joinAll_append] at heq
  have hmid := string_append_left_cancel heq
  simp only [joinAll, ← String.append_assoc] at hmid
  exact hne (string_append_right_cancel hmid)

/-- Witness for C6 amended at the first two deltas of scenario B, "1" and ", 2",
which do not commute. -/
theorem c6_witness :
    consumeStream (([] ++ "1" :: ", 2" :: []).map mkFragment) =
      Except.ok (joinAll ([] ++ "1" :: ", 2" :: []), [] ++ "1" :: ", 2" :: []) ∧
    consumeStream (([] ++ ", 2" :: "1" :: []).map mkFragment) =
      Except.ok (joinAll ([] ++ ", 2" :: "1" :: []), [] ++ ", 2" :: "1" :: []) ∧
    joinAll ([] ++ "1" :: ", 2" :: []) ≠ joinAll ([] ++ ", 2" :: "1" :: []) :=
  c6_order_sensitive [] "1" ", 2" [] (by decide)

/-- C7 counterexample: the streaming test's request is not scenario A's request
with stream set to true — its max_tokens is 50 (not 100) and its user message
differs ("Count from 1 to 5 slowly."). -/
theorem c7_counterexample :
    request2 ≠ { request1 with stream := true } ∧
    request2.maxTokens ≠ request1.maxTokens ∧
    request2.messages ≠ request1.messages := by
  refine ⟨?_, by decide, by decide⟩
  intro h
  exact absurd (congrArg ChatRequest.maxTokens h) (by decide)

/-- C7 amended: the streaming test submits a request with the same model,
system message and temperature as scenario A but user message "Count from 1 to
5 slowly.", max_tokens 50, and stream true; against a transport stub yielding
fragments with deltas "1", ", 2", ", 3", ", 4", ", 5" it yields accumulated
text "1, 2, 3, 4, 5", with each delta surfaced individually and in order. -/
theorem c7_scenario_b :
    request2.model = request1.model ∧
    request2.messages.head? = request1.messages.head? ∧
    request2.temperature = request1.temperature ∧
    request2.maxTokens = 50 ∧
    request2.stream = true ∧
    runTest2 stubB = Except.ok ("1, 2, 3, 4, 5", ["1", ", 2", ", 3", ", 4", ", 5"]) :=
  ⟨rfl, rfl, rfl, rfl, rfl, rfl⟩

/-- C8 counterexample: a result whose first choice has a message but an absent
content is consumed successfully — the demo prints the absent value and reports
success, so this malformed shape is not reported as a failure. -/
theorem c8_counterexample :
    consume { choices := [{ message := some { content := none } }] } =
      Except.ok none := rfl

/-- C8 amended: a result with no choices, or whose first choice is missing its
message, is reported as a distinct failure; a first choice whose message is
present but whose content is absent is surfaced as the absent value — a
success, not a failure, and never coerced to empty text. -/
theorem c8_malformed_result (r : CompletionResult) :
    (r.choices = [] → consume r = Except.error DemoError.noChoices) ∧
    (∀ c cs, r.choices = c :: cs → c.message = none →
      consume r = Except.error DemoError.noMessage) ∧
    (∀ c cs m, r.choices = c :: cs → c.message = some m → m.content = none →
      consume r = Except.ok none ∧ consume r ≠ Except.ok (some "")) := by
  refine ⟨fun h => by simp [consume, h], fun c cs h1 h2 => by simp [consume, h1, h2],
    fun c cs m h1 h2 h3 => ?_⟩
  have hok : consume r = Except.ok none := by simp [consume, h1, h2, h3]
  exact ⟨hok, by simp [hok]⟩

/-- Witness for C8 amended at the three malformed shapes. -/
theorem c8_witness :
    consume { choices := [] } = Except.error DemoError.noChoices ∧
    consume { choices := [{ message := none }] } = Except.error DemoError.noMessage ∧
    consume { choices := [{ message := some { content := none } }] } = Except.ok none :=
  ⟨(c8_malformed_result _).1 rfl,
   (c8_malformed_result _).2.1 _ [] rfl rfl,
   ((c8_malformed_result _).2.2 _ [] _ rfl rfl rfl).1⟩

/-- C9: a streaming sequence of zero fragments is consumed successfully: the
accumulated text is empty, no delta is surfaced, and the operation's outcome is
a success, not an error. -/
theorem c9_empty_stream_succeeds (t : Transport)
    (h : t.completeStream request2 = Except.ok []) :
    runTest2 t = Except.ok ("", []) := by
  unfold runTest2
  rw [h]
  rfl

/-- Witness for C9 at a transport whose stream yields no fragments. -/
theorem c9_witness : runTest2 stub9 = Except.ok ("", []) :=
  c9_empty_stream_succeeds stub9 rfl

/-- C10: a fragment whose choices list is empty is not skipped like an absent
delta: after any prefix of fragments with present deltas, it aborts the whole
streaming consumption with the index fault, even if later fragments are
well-formed, and the error result carries no accumulated text. -/
theorem c10_empty_choices_aborts (pre post : List CompletionFragment)
    (h : ∀ f ∈ pre, (fragmentDelta f).isSome) :
    consumeStream (pre ++ { choices := [] } :: post) =
      Except.error DemoError.noChoices :=
  runStream_prefix_error pre post "" []
    (fun f hf => choices_ne_nil_of_delta_isSome (h f hf))

/-- Witness for C10 at a stream whose middle fragment has no choices and whose
last fragment is well-formed. -/
theorem c10_witness :
    consumeStream [mkFragment "ok", { choices := [] }, mkFragment "later"] =
      Except.error DemoError.noChoices :=
  c10_empty_choices_aborts [mkFragment "ok"] [mkFragment "later"] (by decide)

end TraceForge
